import Mathlib

/-!
Verification development for the ChatRoom server core (connection/session layer
and message-routing engine).  Each definition is a shallow embedding of a
function of the Python source, named after it; the theorems at the end of the
file settle the specification claims against these definitions.

Conventions used throughout:
* sockets are identified by a numeric handle (`Socket := Nat`); two Python
  socket objects compare equal exactly when they are the same handle;
* Python `dict` state (insertion ordered, unique keys) is modelled as an
  association list in insertion order;
* byte buffers that the source always decodes as UTF-8 text are modelled as
  `List Char` (the concrete inputs appearing in the theorems are ASCII, where
  the byte/character distinction is immaterial);
* fallible persistence operations return `Except Unit`.
-/

namespace ChatRoom

/-- Socket handle. -/
abbrev Socket := Nat

/-- Client record (server/models/client.py): the username together with the
socket it is bound to.  The connected-at timestamp and address play no role in
any claim and are omitted. -/
structure Client where
  username : String
  socket : Socket
deriving DecidableEq

/-- State of `ConnectionManager.clients` (server/managers/connection_manager.py):
a Python dict mapping username to Client, modelled as an insertion-ordered
association list. -/
abbrev Registry := List (String × Client)

/-- Membership test used by `register_client`, `unregister_client` and
`is_client_connected`: `username in self.clients`. -/
def hasKey (m : Registry) (u : String) : Bool :=
  (m.find? (fun p => p.1 == u)).isSome

/-- ConnectionManager.register_client: fail (leaving the dict unchanged) when
the username is already present, otherwise insert the client. -/
def registerClient (m : Registry) (u : String) (c : Client) : Bool × Registry :=
  if hasKey m u then (false, m) else (true, m ++ [(u, c)])

/-- ConnectionManager.unregister_client: no-op returning `false` when the
username is absent, otherwise delete its entry. -/
def unregisterClient (m : Registry) (u : String) : Bool × Registry :=
  if hasKey m u then (true, m.filter (fun p => p.1 != u)) else (false, m)

/-- ConnectionManager.is_client_connected. -/
def isClientConnected (m : Registry) (u : String) : Bool :=
  hasKey m u

/-- ConnectionManager.get_client. -/
def getClient (m : Registry) (u : String) : Option Client :=
  (m.find? (fun p => p.1 == u)).map (fun p => p.2)

/-- ConnectionManager.get_all_usernames: `list(self.clients.keys())`. -/
def getAllUsernames (m : Registry) : List String :=
  m.map (fun p => p.1)

/-- Wire response envelope: the fields of the dicts built by the handlers
(`type`, `success`, `message`, optional `username`). -/
structure Response where
  rtype : String
  success : Bool
  message : String
  username : Option String
deriving DecidableEq

/-- Observable server-to-socket effects of the login path, in emission order:
a response written to the logging-in client's own socket, a system broadcast
(`broadcast_system_message`), and the online-user-list push (`send_user_list`). -/
inductive Event where
  | sendResponse (r : Response)
  | broadcastSystem (msg : String)
  | sendUserList
deriving DecidableEq

/-- Python truthiness test `not s` for an optional string field obtained with
`request.get(...)`: true when the field is missing or the empty string. -/
def falsy : Option String → Bool
  | none => true
  | some s => s == ""

/-- Result of `ClientHandler._handle_login`: the response the caller still has
to send (`none` on success, where the success response was already emitted as
an event), the registry afterwards, the emitted events in order, and the
`authenticated` flag. -/
structure LoginResult where
  response : Option Response
  registry : Registry
  events : List Event
  authenticated : Bool
deriving DecidableEq

/-- ClientHandler._handle_login (server/handlers/client_handler.py, lines
96-153).  `auth` stands for `AuthManager.authenticate` on the current user
table.  On a successful registration the source first sends the
`login_success` response, then broadcasts the joined message, then pushes the
user list; on a duplicate login `register_client` fails and the handler
returns the `login_failed` "already online" response with the registry
untouched. -/
def handleLogin (auth : String → String → Bool) (m : Registry) (sock : Socket)
    (username password : Option String) : LoginResult :=
  if falsy username || falsy password then
    ⟨some ⟨"login_failed", false, "用户名和密码不能为空", none⟩, m, [], false⟩
  else
    let u := username.getD ""
    let p := password.getD ""
    if auth u p then
      let c : Client := ⟨u, sock⟩
      let r := registerClient m u c
      if r.1 then
        ⟨none, r.2,
          [Event.sendResponse ⟨"login_success", true, "登录成功", some u⟩,
           Event.broadcastSystem (u ++ " 加入了聊天室"),
           Event.sendUserList], true⟩
      else
        ⟨some ⟨"login_failed", false, "用户已在线", none⟩, r.2, [], false⟩
    else
      ⟨some ⟨"login_failed", false, "用户名或密码错误", none⟩, m, [], false⟩

/-- Decoded JSON value.  The number grammar is modelled for the integer
subset actually exercised here (floats and the `\u` string escape are outside
the modelled subset; no claim evaluates the parser on them). -/
inductive Json where
  | null
  | bool (b : Bool)
  | num (n : Int)
  | str (s : List Char)
  | arr (elems : List Json)
  | obj (members : List (List Char × Json))

/-- Skip JSON whitespace, as `json.loads` does around tokens. -/
def skipWs : List Char → List Char
  | [] => []
  | c :: cs => if c = ' ' ∨ c = '\t' ∨ c = '\n' ∨ c = '\r' then skipWs cs else c :: cs

/-- Backslash escapes accepted inside JSON strings. -/
def escapeChar : Char → Option Char
  | '"' => some '"'
  | '\\' => some '\\'
  | '/' => some '/'
  | 'b' => some (Char.ofNat 8)
  | 'f' => some (Char.ofNat 12)
  | 'n' => some '\n'
  | 'r' => some '\r'
  | 't' => some '\t'
  | _ => none

/-- Parse the body of a JSON string after the opening quote, returning the
decoded characters and the input following the closing quote. -/
def parseStringBody : List Char → Option (List Char × List Char)
  | [] => none
  | '"' :: cs => some ([], cs)
  | '\\' :: e :: cs =>
    match escapeChar e, parseStringBody cs with
    | some c, some (s, rest) => some (c :: s, rest)
    | _, _ => none
  | c :: cs =>
    match parseStringBody cs with
    | some (s, rest) => some (c :: s, rest)
    | none => none

/-- Decimal digit test. -/
def isDigit (c : Char) : Bool := '0' ≤ c && c ≤ '9'

/-- Consume a run of decimal digits, accumulating their value. -/
def parseDigits : List Char → Nat → Nat × List Char
  | c :: cs, acc =>
    if isDigit c then parseDigits cs (acc * 10 + (c.toNat - 48)) else (acc, c :: cs)
  | [], acc => (acc, [])

/-- Parse a JSON natural-number literal (no leading zeros, per the JSON
grammar enforced by `json.loads`). -/
def parseNat : List Char → Option (Nat × List Char)
  | [] => none
  | c :: cs =>
    if isDigit c then
      if c = '0' then
        match cs with
        | d :: _ => if isDigit d then none else some (0, cs)
        | [] => some (0, [])
      else some (parseDigits cs (c.toNat - 48))
    else none

/-- Parse a JSON integer literal; a following fraction or exponent marker is
outside the modelled subset and rejected. -/
def parseNumber (s : List Char) : Option (Int × List Char) :=
  let core : List Char → Option (Nat × List Char) := parseNat
  let finish : (Nat × List Char) → Bool → Option (Int × List Char) := fun (n, rest) neg =>
    match rest with
    | d :: _ =>
      if d = '.' ∨ d = 'e' ∨ d = 'E' then none
      else some (if neg then -(n : Int) else (n : Int), rest)
    | [] => some (if neg then -(n : Int) else (n : Int), rest)
  match s with
  | '-' :: rest =>
    match core rest with
    | some r => finish r true
    | none => none
  | _ =>
    match core s with
    | some r => finish r false
    | none => none

mutual

/-- Parse one JSON value (fuelled recursion; the fuel passed by `loads` always
suffices because every recursion step consumes input). -/
def parseValue : Nat → List Char → Option (Json × List Char)
  | 0, _ => none
  | fuel + 1, s =>
    match skipWs s with
    | [] => none
    | '{' :: cs =>
      match skipWs cs with
      | '}' :: rest => some (Json.obj [], rest)
      | _ =>
        match parseMembers fuel cs with
        | some (ms, r) => some (Json.obj ms, r)
        | none => none
    | '[' :: cs =>
      match skipWs cs with
      | ']' :: rest => some (Json.arr [], rest)
      | _ =>
        match parseElems fuel cs with
        | some (es, r) => some (Json.arr es, r)
        | none => none
    | '"' :: cs =>
      match parseStringBody cs with
      | some (str, r) => some (Json.str str, r)
      | none => none
    | 't' :: 'r' :: 'u' :: 'e' :: rest => some (Json.bool true, rest)
    | 'f' :: 'a' :: 'l' :: 's' :: 'e' :: rest => some (Json.bool false, rest)
    | 'n' :: 'u' :: 'l' :: 'l' :: rest => some (Json.null, rest)
    | s' =>
      match parseNumber s' with
      | some (n, r) => some (Json.num n, r)
      | none => none

/-- Parse the members of a JSON object (at least one), up to and including the
closing brace. -/
def parseMembers : Nat → List Char → Option (List (List Char × Json) × List Char)
  | 0, _ => none
  | fuel + 1, s =>
    match skipWs s with
    | '"' :: cs =>
      match parseStringBody cs with
      | some (key, r1) =>
        match skipWs r1 with
        | ':' :: r2 =>
          match parseValue fuel r2 with
          | some (v, r3) =>
            match skipWs r3 with
            | ',' :: r4 =>
              match parseMembers fuel r4 with
              | some (ms, r5) => some ((key, v) :: ms, r5)
              | none => none
            | '}' :: r4 => some ([(key, v)], r4)
            | _ => none
          | none => none
        | _ => none
      | none => none
    | _ => none

/-- Parse the elements of a JSON array (at least one), up to and including the
closing bracket. -/
def parseElems : Nat → List Char → Option (List Json × List Char)
  | 0, _ => none
  | fuel + 1, s =>
    match parseValue fuel s with
    | some (v, r1) =>
      match skipWs r1 with
      | ',' :: r2 =>
        match parseElems fuel r2 with
        | some (es, r3) => some (v :: es, r3)
        | none => none
      | ']' :: r2 => some ([v], r2)
      | _ => none
    | none => none

end

/-- Model of `json.loads` on the decoded text of the buffer: parse exactly one
JSON value, requiring the whole input to be consumed (trailing data beyond
whitespace raises `Extra data`, i.e. returns `none`). -/
def loads (s : List Char) : Option Json :=
  match parseValue (s.length + 1) s with
  | none => none
  | some (v, rest) => if skipWs rest = [] then some v else none

/-- One read iteration of `ClientHandler._handle_messages` (lines 191-254):
the chunk is appended to the accumulator, then the inner `while buffer` loop
attempts `json.loads` on the whole buffer.  On success the single decoded
request is processed and the buffer is cleared (after which the loop exits);
on `JSONDecodeError` the loop breaks, keeping the buffer for the next read. -/
def feedChunk (buffer chunk : List Char) : List Char × List Json :=
  let b := buffer ++ chunk
  if b.isEmpty then (b, [])
  else
    match loads b with
    | some v => ([], [v])
    | none => (b, [])

/-- Feed a sequence of read chunks through the receive loop, collecting the
decoded requests in emission order and the final accumulator. -/
def feedChunks (buffer : List Char) : List (List Char) → List Char × List Json
  | [] => (buffer, [])
  | c :: cs =>
    let r1 := feedChunk buffer c
    let r2 := feedChunks r1.1 cs
    (r2.1, r1.2 ++ r2.2)

/-- A connection-manager life-cycle step: a registration attempt (the login
path) or an unregistration (disconnect/logout cleanup). -/
inductive RegistryOp where
  | register (u : String) (c : Client)
  | unregister (u : String)

/-- Apply one life-cycle step to the registry. -/
def applyOp (m : Registry) : RegistryOp → Registry
  | .register u c => (registerClient m u c).2
  | .unregister u => (unregisterClient m u).2

/-- Apply a sequence of life-cycle steps. -/
def applyOps (m : Registry) (ops : List RegistryOp) : Registry :=
  ops.foldl applyOp m

/-- Row of the private-conversations table
(common/database/models/private_conversations.py): canonical user pair plus
the last-message pointer. -/
structure Conversation where
  conversation_id : Nat
  user1_id : String
  user2_id : String
  last_message_id : Option Nat
deriving DecidableEq

/-- Conversations table state: the rows plus the id the next insert receives. -/
structure ConvStore where
  rows : List Conversation
  nextId : Nat
deriving DecidableEq

/-- SQLAlchemy `scalar_one_or_none`: `none` on no match, the row on exactly
one match, an exception on several. -/
def scalarOneOrNone {α : Type} (l : List α) (p : α → Bool) : Except Unit (Option α) :=
  match l.filter p with
  | [] => Except.ok none
  | [x] => Except.ok (some x)
  | _ => Except.error ()

/-- PrivateConversationCRUD.get_by_users (lines 29-49): swap the ids into
ascending string order, then look the canonical pair up. -/
def getByUsers (s : ConvStore) (user1 user2 : String) : Except Unit (Option Conversation) :=
  let q := if user2 < user1 then (user2, user1) else (user1, user2)
  scalarOneOrNone s.rows (fun c => c.user1_id == q.1 && c.user2_id == q.2)

/-- PrivateConversationCRUD.create: insert a fresh row (no last message yet). -/
def createConversation (s : ConvStore) (u1 u2 : String) : Conversation × ConvStore :=
  let c : Conversation := ⟨s.nextId, u1, u2, none⟩
  (c, ⟨s.rows ++ [c], s.nextId + 1⟩)

/-- Python `min` of two strings. -/
def pymin (a b : String) : String := if b < a then b else a

/-- Python `max` of two strings. -/
def pymax (a b : String) : String := if a < b then b else a

/-- The get-or-create step of MessageManager.send_private_message (lines
75-85): fetch the conversation via `get_by_users`; when absent, create it with
`user1_id = min(ids)` and `user2_id = max(ids)`. -/
def getOrCreateConversation (s : ConvStore) (ua ub : String) :
    Except Unit (Conversation × ConvStore) :=
  match getByUsers s ua ub with
  | Except.error e => Except.error e
  | Except.ok (some c) => Except.ok (c, s)
  | Except.ok none => Except.ok (createConversation s (pymin ua ub) (pymax ua ub))

/-- MessageManager._broadcast_to_clients (lines 233-250): walk the registry in
insertion order, skip the excluded socket when one is given, write the
envelope to every other socket, and collect the usernames whose write raised
(they are unregistered only after the loop).  Returns the sockets written to,
in order, and those usernames.  `sendOk` tells whether a write succeeds. -/
def broadcastToClients (m : Registry) (excludeSocket : Option Socket)
    (sendOk : Socket → Bool) : List Socket × List String :=
  match m with
  | [] => ([], [])
  | (u, c) :: rest =>
    let skip : Bool :=
      match excludeSocket with
      | some s => c.socket == s
      | none => false
    let r := broadcastToClients rest excludeSocket sendOk
    if skip then r
    else (c.socket :: r.1, if sendOk c.socket then r.2 else u :: r.2)

/-- Post-loop cleanup of `_broadcast_to_clients`: unregister every username
whose write failed. -/
def broadcastCleanup (m : Registry) (disconnected : List String) : Registry :=
  disconnected.foldl (fun acc u => (unregisterClient acc u).2) m

/-- Room-broadcast envelope built by MessageManager.broadcast_message. -/
structure TextEnvelope where
  rtype : String
  username : String
  content : String
deriving DecidableEq

/-- MessageManager.broadcast_message (lines 40-57): build the `text` envelope,
persist it, then fan it out to every registered client except the sender's
socket.  Persistence does not affect delivery, so the result is the envelope
together with the fan-out outcome. -/
def broadcastMessage (m : Registry) (username content : String)
    (senderSocket : Option Socket) (sendOk : Socket → Bool) :
    TextEnvelope × List Socket × List String :=
  (⟨"text", username, content⟩, broadcastToClients m senderSocket sendOk)

/-- Row of the users table, with the id already in the string form
`str(user.user_id)` that the managers compare and store. -/
structure UserRec where
  user_id : String
  username : String
  password_hash : String
  email : Option String
  display_name : String
deriving DecidableEq

/-- Persistence operations performed by the auth manager, recorded in order. -/
inductive DbOp where
  | readUser (username : String)
  | createUser (username : String)
deriving DecidableEq

/-- users_crud.get_by_username. -/
def getByUsername (db : List UserRec) (u : String) : Option UserRec :=
  db.find? (fun r => r.username == u)

/-- AuthManager.authenticate (server/managers/auth_manager.py, lines 19-30);
`verify` abstracts the black-box `password_utils.verify_password`.  Returns
the boolean outcome and the persistence reads performed. -/
def authenticate (verify : String → String → Bool) (db : List UserRec)
    (username password : String) : Bool × List DbOp :=
  if username = "" ∨ password = "" then (false, [])
  else
    match getByUsername db username with
    | none => (false, [DbOp.readUser username])
    | some u => (verify password u.password_hash, [DbOp.readUser username])

/-- AuthManager.register (lines 32-57); `hash` abstracts
`password_utils.hash_password` and `newId` the id the database assigns.
Returns the outcome, the persistence operations performed, and the user table
afterwards. -/
def registerUser (hash : String → String) (newId : String) (db : List UserRec)
    (username password : String) (email : Option String)
    (display_name : Option String) : Bool × List DbOp × List UserRec :=
  if username = "" ∨ password = "" then (false, [], db)
  else
    match getByUsername db username with
    | some _ => (false, [DbOp.readUser username], db)
    | none =>
      let dn :=
        match display_name with
        | none => username
        | some d => if d = "" then username else d
      (true, [DbOp.readUser username, DbOp.createUser username],
       db ++ [⟨newId, username, hash password, email, dn⟩])

/-- Row of the private-messages table
(common/database/models/private_messages.py), restricted to the fields the
claims mention. -/
structure PrivateMessageRec where
  message_id : Nat
  conversation_id : Nat
  sender_id : String
  receiver_id : String
  content_type : String
  content : String
deriving DecidableEq

/-- Persistent state touched by the private-message path. -/
structure ServerDb where
  users : List UserRec
  convs : ConvStore
  privMsgs : List PrivateMessageRec
  nextMsgId : Nat
deriving DecidableEq

/-- An envelope written directly to one client socket (the live-delivery push
of a private message). -/
structure Push where
  socket : Socket
  rtype : String
  username : String
  receiver : String
  content : String
deriving DecidableEq

/-- PrivateConversationCRUD.update_last_message: point the conversation row at
its newest message. -/
def updateLastMessage (s : ConvStore) (cid mid : Nat) : ConvStore :=
  ⟨s.rows.map (fun c =>
    if c.conversation_id == cid then
      ⟨c.conversation_id, c.user1_id, c.user2_id, some mid⟩
    else c), s.nextId⟩

/-- MessageManager.send_private_message (lines 59-152): look both users up
(failing with `false` when either is missing), get or create the conversation,
persist the private message, update the last-message pointer, then push the
`private` envelope to the receiver's socket when the receiver is online — the
sender is never echoed a copy.  When the receiver is offline the message stays
persisted only and the call still reports success. -/
def sendPrivateMessage (m : Registry) (db : ServerDb) (sendOk : Socket → Bool)
    (senderU receiverU content contentType : String) :
    Except Unit (Bool × ServerDb × List Push) :=
  match getByUsername db.users senderU, getByUsername db.users receiverU with
  | some sender, some receiver =>
    match getOrCreateConversation db.convs sender.user_id receiver.user_id with
    | Except.error e => Except.error e
    | Except.ok (conv, convs1) =>
      let msg : PrivateMessageRec :=
        ⟨db.nextMsgId, conv.conversation_id, sender.user_id, receiver.user_id,
         contentType, content⟩
      let convs2 := updateLastMessage convs1 conv.conversation_id msg.message_id
      let db1 : ServerDb := ⟨db.users, convs2, db.privMsgs ++ [msg], db.nextMsgId + 1⟩
      if isClientConnected m receiverU then
        match getClient m receiverU with
        | some rc =>
          Except.ok (sendOk rc.socket, db1,
            [⟨rc.socket, "private", senderU, receiverU, content⟩])
        | none => Except.ok (false, db1, [])
      else
        Except.ok (true, db1, [])
  | _, _ => Except.ok (false, db, [])

/-- Fields of a `private` request as read by
MessageHandler.handle_private_message. -/
structure PrivateRequest where
  username : Option String
  receiver : Option String
  content : Option String
  message : Option String
  content_type : Option String
deriving DecidableEq

/-- Python `request_data.get('content', '') or request_data.get('message', '')`. -/
def requestContent (content message : Option String) : String :=
  let c := content.getD ""
  if c = "" then message.getD "" else c

/-- Python `not content.strip()`: true exactly when every character of the
string is one of the whitespace characters `strip` removes. -/
def pyStripEmpty (s : String) : Bool :=
  s.data.all (fun c =>
    c = ' ' ∨ c = '\t' ∨ c = '\n' ∨ c = '\r' ∨ c = Char.ofNat 11 ∨ c = Char.ofNat 12)

/-- MessageHandler.handle_private_message (server/handlers/message_handler.py,
lines 20-106): validate sender, receiver and content, require the sender to be
online, require the receiver to be online (rejecting with the "not online"
error otherwise), and only then call `send_private_message`. -/
def handlePrivateMessage (m : Registry) (db : ServerDb) (sendOk : Socket → Bool)
    (req : PrivateRequest) : Response × ServerDb × List Push :=
  let content := requestContent req.content req.message
  if falsy req.username then (⟨"error", false, "发送者不能为空", none⟩, db, [])
  else if falsy req.receiver then (⟨"error", false, "接收者不能为空", none⟩, db, [])
  else if pyStripEmpty content then (⟨"error", false, "私聊消息内容不能为空", none⟩, db, [])
  else
    let u := req.username.getD ""
    let recv := req.receiver.getD ""
    if !(isClientConnected m u) then (⟨"error", false, "发送者未登录", none⟩, db, [])
    else if !(isClientConnected m recv) then
      (⟨"error", false, "用户 " ++ recv ++ " 不在线", none⟩, db, [])
    else
      match sendPrivateMessage m db sendOk u recv content (req.content_type.getD "text") with
      | Except.ok (true, db1, pushes) =>
        (⟨"private_message_sent", true, "私聊消息发送成功", none⟩, db1, pushes)
      | Except.ok (false, db1, pushes) =>
        (⟨"error", false, "私聊消息发送失败", none⟩, db1, pushes)
      | Except.error _ => (⟨"error", false, "私聊消息发送失败", none⟩, db, [])

/-- Fields of a content-message request as read by
MessageHandler.handle_message. -/
structure MessageRequest where
  username : Option String
  receiver : Option String
  message_type : Option String
  content : Option String
  content_type : Option String
  filename : Option String
deriving DecidableEq

/-- Side effects of MessageHandler.handle_message when it accepts a request. -/
inductive HandlerEffect where
  | broadcastText (username content : String)
  | broadcastFile (username filename contentType : String)
deriving DecidableEq

/-- MessageHandler.handle_message (lines 109-189): any request carrying a
`receiver` (or declaring `message_type` private) is rejected with the
"use the private message type" error before anything else; otherwise the
content is broadcast to the room. -/
def handleMessage (m : Registry) (req : MessageRequest) :
    Response × List HandlerEffect :=
  if !(falsy req.receiver) || req.message_type == some "private" then
    (⟨"error", false, "私聊消息请使用private消息类型", none⟩, [])
  else
    let username := req.username.getD ""
    let contentType := req.content_type.getD "text"
    let content := req.content.getD ""
    if falsy req.username || !(isClientConnected m username) then
      (⟨"error", false, "用户未登录", none⟩, [])
    else if pyStripEmpty content then
      (⟨"error", false, "消息内容不能为空", none⟩, [])
    else if contentType = "text" then
      (⟨"message_sent", true, "消息发送成功", none⟩,
       [HandlerEffect.broadcastText username content])
    else if contentType = "image" ∨ contentType = "video" ∨ contentType = "file"
        ∨ contentType = "audio" then
      (⟨"message_sent", true, "消息发送成功", none⟩,
       [HandlerEffect.broadcastFile username (req.filename.getD "") contentType])
    else
      (⟨"error", false, "不支持的消息类型: " ++ contentType, none⟩, [])

/-- Handlers reachable from the dispatcher's routes table. -/
inductive HandlerTag where
  | loginTag
  | registerTag
  | messageTag
  | refreshUsersTag
  | logoutTag
  | getHistoryTag
  | getPrivateHistoryTag
deriving DecidableEq

/-- RequestDispatcher.routes (server/handlers/request_dispatcher.py, lines
32-46): the request-type-to-handler table.  Every content type — including
`private` — is mapped to MessageHandler.handle_message. -/
def routes (t : String) : Option HandlerTag :=
  if t = "login" then some HandlerTag.loginTag
  else if t = "register" then some HandlerTag.registerTag
  else if t = "text" ∨ t = "image" ∨ t = "video" ∨ t = "file" ∨ t = "audio"
      ∨ t = "private" then some HandlerTag.messageTag
  else if t = "refresh_users" then some HandlerTag.refreshUsersTag
  else if t = "logout" then some HandlerTag.logoutTag
  else if t = "get_history" then some HandlerTag.getHistoryTag
  else if t = "get_private_history" then some HandlerTag.getPrivateHistoryTag
  else none

/-- RequestDispatcher.dispatch restricted to requests the routes table sends
to MessageHandler.handle_message; for any other route the content-request view
does not apply and `none` is returned. -/
def dispatchContentRequest (m : Registry) (t : String) (req : MessageRequest) :
    Option (Response × List HandlerEffect) :=
  match routes t with
  | some HandlerTag.messageTag => some (handleMessage m req)
  | _ => none

/-- Row of the room-messages table
(common/database/models/global_messages.py), restricted to the fields the
history path reads; `created_at` is the creation timestamp the SQL sort keys
on. -/
structure GlobalMsg where
  message_id : Nat
  user_id : Option String
  content_type : String
  content : String
  created_at : Nat
deriving DecidableEq

/-- Descending creation-time order used by `order_by(created_at.desc())`. -/
def byTimeDesc (a b : GlobalMsg) : Prop := b.created_at ≤ a.created_at

instance : DecidableRel byTimeDesc := fun a b => Nat.decLe b.created_at a.created_at

instance : IsTotal GlobalMsg byTimeDesc := ⟨fun a b => Nat.le_total b.created_at a.created_at⟩

instance : IsTrans GlobalMsg byTimeDesc := ⟨fun _ _ _ h1 h2 => le_trans h2 h1⟩

/-- GlobalMessageCRUD.get_lasted_message (lines 33-50): select ordered by
`created_at` descending, take the first `num` rows, then reverse so the oldest
comes first. -/
def getLastedMessage (db : List GlobalMsg) (num : Nat) : List GlobalMsg :=
  ((List.insertionSort byTimeDesc db).take num).reverse

/-- GlobalMessageCRUD.get_before_message (lines 52-81): look the cursor row up
by id; when it is missing, fall back to `get_lasted_message`; otherwise select
the rows strictly older than the cursor, newest first, take `num`, and reverse
to oldest-first. -/
def getBeforeMessage (db : List GlobalMsg) (message_id : Nat) (num : Nat) :
    Except Unit (List GlobalMsg) :=
  match scalarOneOrNone db (fun msg => msg.message_id == message_id) with
  | Except.error e => Except.error e
  | Except.ok none => Except.ok (getLastedMessage db num)
  | Except.ok (some cur) =>
    Except.ok (((List.insertionSort byTimeDesc
      (db.filter (fun msg => msg.created_at < cur.created_at))).take num).reverse)

/-- Shape of one entry of the `messages` list built by
MessageManager.get_history_messages; `timestamp` carries `created_at`. -/
structure FormattedMsg where
  message_id : Nat
  username : String
  content_type : String
  content : String
  timestamp : Nat
deriving DecidableEq

/-- The per-row formatting step of MessageManager.get_history_messages:
system messages get the fixed system author name, otherwise the author
username is looked up (falling back to the unknown-user name). -/
def formatMsg (users : List UserRec) (msg : GlobalMsg) : FormattedMsg :=
  let username :=
    match msg.user_id with
    | none => "系统"
    | some uid =>
      match users.find? (fun u => u.user_id == uid) with
      | some u => u.username
      | none => "未知用户"
  ⟨msg.message_id, username, msg.content_type, msg.content, msg.created_at⟩

/-- MessageManager.get_history_messages (lines 484-526).  The whole body sits
in a `try` whose `except` returns the empty list, so a failing persistence
read (`dbr` is its outcome) or a raising CRUD call yields `[]`, never an
exception. -/
def getHistoryMessages (users : List UserRec) (dbr : Except Unit (List GlobalMsg))
    (message_id : Option Nat) (limit : Nat) : List FormattedMsg :=
  match dbr with
  | Except.error _ => []
  | Except.ok db =>
    match message_id with
    | none => (getLastedMessage db limit).map (formatMsg users)
    | some mid =>
      match getBeforeMessage db mid limit with
      | Except.ok msgs => msgs.map (formatMsg users)
      | Except.error _ => []

/-- Response of MessageHandler.handle_get_history (lines 191-212). -/
structure HistoryResponse where
  rtype : String
  success : Bool
  messages : List FormattedMsg
deriving DecidableEq

/-- MessageHandler.handle_get_history: forward to the manager and wrap the
result as a `get_history` success; the manager never raises (it swallows
persistence failures into `[]`), so the handler's own `error` branch is
unreachable. -/
def handleGetHistory (users : List UserRec) (dbr : Except Unit (List GlobalMsg))
    (message_id : Option Nat) (limit : Nat) : HistoryResponse :=
  ⟨"get_history", true, getHistoryMessages users dbr message_id limit⟩

/-- Control-flow outcome of dispatching one parsed request inside
ClientHandler._handle_messages. -/
inductive StepOutcome where
  | continueLoop
  | closeConnection
deriving DecidableEq

/-- Which requests leave the receive loop of ClientHandler._handle_messages
(lines 196-254): only `logout` returns; every other branch — including
`get_history`, whatever the manager returned — sends its response and keeps
the loop (and hence the session) running. -/
def handleMessagesOutcome (t : String) : StepOutcome :=
  if t = "logout" then StepOutcome.closeConnection else StepOutcome.continueLoop

/-! Theorems.  Shared helper lemmas come first, then one theorem per claim
(with its witness or counterexample where required). -/

/-- C2: the claim that the receive loop emits the decoded objects however the
bytes are split fails on the code.  A single read whose buffer holds the two
valid JSON objects written as the fourteen characters of
`br-qt-a-qt-colon-1-kt  br-qt-b-qt-colon-2-kt` emits nothing — `json.loads`
is applied to the whole buffer, fails with Extra data, and the loop just keeps
accumulating — while the very same bytes split at the object boundary emit
both objects.  (The code's own comment says the loop parses all complete JSON
objects in the buffer, which it does not.) -/
theorem framing_not_split_invariant :
    loads ['{', '"', 'a', '"', ':', '1', '}'] = some (Json.obj [(['a'], Json.num 1)]) ∧
    loads ['{', '"', 'b', '"', ':', '2', '}'] = some (Json.obj [(['b'], Json.num 2)]) ∧
    (feedChunks []
      [['{', '"', 'a', '"', ':', '1', '}', '{', '"', 'b', '"', ':', '2', '}']]).2 = [] ∧
    (feedChunks []
      [['{', '"', 'a', '"', ':', '1', '}'], ['{', '"', 'b', '"', ':', '2', '}']]).2 =
      [Json.obj [(['a'], Json.num 1)], Json.obj [(['b'], Json.num 2)]] :=
  ⟨rfl, rfl, rfl, rfl⟩

/-- C5: the claim that a private message to a registered but offline receiver
succeeds fails on the code.  With user A online, user B present in the users
table but offline, `handle_private_message` answers the "user not online"
error before `send_private_message` ever runs: the database is unchanged (the
message is not persisted) and nothing is pushed. -/
theorem offline_private_message_rejected :
    handlePrivateMessage [("A", ⟨"A", 0⟩)]
      ⟨[⟨"1", "A", "h", none, "A"⟩, ⟨"2", "B", "h", none, "B"⟩], ⟨[], 0⟩, [], 0⟩
      (fun _ => true)
      ⟨some "A", some "B", some "hi", none, some "text"⟩ =
      (⟨"error", false, "用户 B 不在线", none⟩,
       ⟨[⟨"1", "A", "h", none, "A"⟩, ⟨"2", "B", "h", none, "B"⟩], ⟨[], 0⟩, [], 0⟩,
       []) := by
  decide

/-- C6: the claim that a `private` request from an online sender to an online
receiver yields `private_message_sent` plus one push to the receiver fails on
the code.  The routes table maps `private` to `handle_message`, whose first
check rejects any request carrying a receiver with the "use the private
message type" error — no push is emitted to anyone, and
`MessageHandler.handle_private_message` is reachable from no route. -/
theorem private_request_misrouted :
    routes "private" = some HandlerTag.messageTag ∧
    dispatchContentRequest [("A", ⟨"A", 0⟩), ("B", ⟨"B", 1⟩)] "private"
      ⟨some "A", some "B", none, some "hi", some "text", none⟩ =
      some (⟨"error", false, "私聊消息请使用private消息类型", none⟩, []) := by
  constructor
  · decide
  · decide

/-- C9 counterexample: when the persistence read behind `get_history_messages`
fails, the caller does not receive an `error` response — the manager swallows
the failure into an empty list and `handle_get_history` wraps it as a
`get_history` success. -/
theorem history_persistence_error_not_surfaced :
    (handleGetHistory [] (Except.error ()) none 50).rtype = "get_history" ∧
    (handleGetHistory [] (Except.error ()) none 50).success = true ∧
    (handleGetHistory [] (Except.error ()) none 50).rtype ≠ "error" := by
  refine ⟨rfl, rfl, ?_⟩
  decide

/-- C9 amended: a failing persistence read behind `get_history_messages` is
swallowed — for every request the caller receives the `get_history` success
response with an empty message list (never an `error`), and the receive loop
continues, so the session is not torn down. -/
theorem history_persistence_error_swallowed (users : List UserRec)
    (mid : Option Nat) (limit : Nat) :
    handleGetHistory users (Except.error ()) mid limit =
      ⟨"get_history", true, []⟩ ∧
    handleMessagesOutcome "get_history" = StepOutcome.continueLoop :=
  ⟨rfl, rfl⟩

/-- C10: with an empty username or an empty password, `authenticate` and
`register` both return false before touching persistence — no read or write
is performed, and in particular `register` leaves the user table unchanged, so
no user record with an empty username or password is ever created. -/
theorem empty_credentials_guard (verify : String → String → Bool)
    (hash : String → String) (newId : String) (db : List UserRec)
    (username password : String) (email display_name : Option String)
    (h : username = "" ∨ password = "") :
    authenticate verify db username password = (false, []) ∧
    registerUser hash newId db username password email display_name =
      (false, [], db) := by
  unfold authenticate registerUser
  rw [if_pos h, if_pos h]
  exact ⟨rfl, rfl⟩

/-- C10 witness: the guard theorem applied at a concrete empty username. -/
theorem empty_credentials_guard_witness :
    (("" : String) = "" ∨ ("pw" : String) = "") ∧
    (authenticate (fun _ _ => true) [] "" "pw" = (false, []) ∧
     registerUser (fun p => p) "1" [] "" "pw" none none = (false, [], [])) :=
  ⟨Or.inl rfl,
   empty_credentials_guard (fun _ _ => true) (fun p => p) "1" [] "" "pw" none none
     (Or.inl rfl)⟩

/-- Helper: the excluded socket is never written to during fan-out. -/
theorem broadcastToClients_excludes (m : Registry) (ex : Socket)
    (sendOk : Socket → Bool) :
    ex ∉ (broadcastToClients m (some ex) sendOk).1 := by
  induction m with
  | nil => simp [broadcastToClients]
  | cons q rest ih =>
    obtain ⟨u, c⟩ := q
    by_cases h : c.socket = ex
    · simpa [broadcastToClients, h] using ih
    · simp only [broadcastToClients, beq_iff_eq, if_neg h, List.mem_cons]
      rintro (rfl | hmem)
      · exact h rfl
      · exact ih hmem

/-- Helper: every registered client whose socket differs from the excluded
one is written to during fan-out. -/
theorem broadcastToClients_covers (m : Registry) (ex : Socket)
    (sendOk : Socket → Bool) (u : String) (c : Client)
    (hm : (u, c) ∈ m) (hs : c.socket ≠ ex) :
    c.socket ∈ (broadcastToClients m (some ex) sendOk).1 := by
  induction m with
  | nil => cases hm
  | cons q rest ih =>
    rcases List.mem_cons.mp hm with heq | hmem
    · subst heq
      simp [broadcastToClients, beq_iff_eq, if_neg hs, hs]
    · obtain ⟨u0, c0⟩ := q
      by_cases h0 : c0.socket = ex
      · simpa [broadcastToClients, h0] using ih hmem
      · simp only [broadcastToClients, beq_iff_eq, if_neg h0, List.mem_cons]
        exact Or.inr (ih hmem)

/-- C4: when online user A (registered with client cA) sends a room text
message, the broadcast envelope is written to the socket of every other
registered session (whose sockets, being distinct connections, differ from
A's), and A's own socket is never written to. -/
theorem broadcast_exclusion (m : Registry) (A content : String) (cA : Client)
    (sendOk : Socket → Bool) (hA : (A, cA) ∈ m)
    (hsock : ∀ q ∈ m, q.1 ≠ A → q.2.socket ≠ cA.socket) :
    cA.socket ∉ (broadcastMessage m A content (some cA.socket) sendOk).2.1 ∧
    ∀ q ∈ m, q.1 ≠ A →
      q.2.socket ∈ (broadcastMessage m A content (some cA.socket) sendOk).2.1 := by
  refine ⟨broadcastToClients_excludes m cA.socket sendOk, ?_⟩
  intro q hq hne
  exact broadcastToClients_covers m cA.socket sendOk q.1 q.2 hq (hsock q hq hne)

/-- C4 witness: the exclusion theorem applied to a concrete two-user registry. -/
theorem broadcast_exclusion_witness :
    (("A", (⟨"A", 0⟩ : Client)) ∈
        [("A", (⟨"A", 0⟩ : Client)), ("B", (⟨"B", 1⟩ : Client))] ∧
     ∀ q ∈ [("A", (⟨"A", 0⟩ : Client)), ("B", (⟨"B", 1⟩ : Client))],
       q.1 ≠ "A" → q.2.socket ≠ (⟨"A", 0⟩ : Client).socket) ∧
    ((⟨"A", 0⟩ : Client).socket ∉
      (broadcastMessage [("A", ⟨"A", 0⟩), ("B", ⟨"B", 1⟩)] "A" "hi"
        (some (⟨"A", 0⟩ : Client).socket) (fun _ => true)).2.1 ∧
     ∀ q ∈ [("A", (⟨"A", 0⟩ : Client)), ("B", (⟨"B", 1⟩ : Client))],
       q.1 ≠ "A" →
         q.2.socket ∈ (broadcastMessage [("A", ⟨"A", 0⟩), ("B", ⟨"B", 1⟩)] "A" "hi"
           (some (⟨"A", 0⟩ : Client).socket) (fun _ => true)).2.1) :=
  ⟨⟨by decide, by decide⟩,
   broadcast_exclusion [("A", ⟨"A", 0⟩), ("B", ⟨"B", 1⟩)] "A" "hi" ⟨"A", 0⟩
     (fun _ => true) (by decide) (by decide)⟩

/-- C8: a successful login (non-empty credentials, authentication passes, the
username is not yet online) emits exactly, and in this order: the
`login_success` response to the logging-in client, the system "joined"
broadcast, and the user-list push to everyone; the client is registered and
the handler returns no further response. -/
theorem login_success_sequence (auth : String → String → Bool) (m : Registry)
    (sock : Socket) (u p : String) (hu : u ≠ "") (hp : p ≠ "")
    (hauth : auth u p = true) (hoff : isClientConnected m u = false) :
    handleLogin auth m sock (some u) (some p) =
      ⟨none, m ++ [(u, ⟨u, sock⟩)],
       [Event.sendResponse ⟨"login_success", true, "登录成功", some u⟩,
        Event.broadcastSystem (u ++ " 加入了聊天室"),
        Event.sendUserList], true⟩ := by
  have hu' : (u == "") = false := beq_eq_false_iff_ne.mpr hu
  have hp' : (p == "") = false := beq_eq_false_iff_ne.mpr hp
  have hk : hasKey m u = false := hoff
  unfold handleLogin
  simp [falsy, hu', hp', hauth, registerClient, hk]

/-- C8 witness: the sequence theorem applied to a fresh registry. -/
theorem login_success_sequence_witness :
    (("alice" : String) ≠ "" ∧ ("pw" : String) ≠ "" ∧
     (fun _ _ => true : String → String → Bool) "alice" "pw" = true ∧
     isClientConnected [] "alice" = false) ∧
    handleLogin (fun _ _ => true) [] 7 (some "alice") (some "pw") =
      ⟨none, [("alice", ⟨"alice", 7⟩)],
       [Event.sendResponse ⟨"login_success", true, "登录成功", some "alice"⟩,
        Event.broadcastSystem ("alice" ++ " 加入了聊天室"),
        Event.sendUserList], true⟩ :=
  ⟨⟨by decide, by decide, rfl, rfl⟩,
   login_success_sequence (fun _ _ => true) [] 7 "alice" "pw" (by decide)
     (by decide) rfl rfl⟩

/-- Helper: an absent key is not among the registry's usernames. -/
theorem hasKey_false_not_mem (m : Registry) (u : String)
    (h : hasKey m u = false) : u ∉ m.map Prod.fst := by
  intro hmem
  obtain ⟨q, hq, hqu⟩ := List.mem_map.mp hmem
  have hsome : (m.find? (fun r => r.1 == u)).isSome = true :=
    List.find?_isSome.mpr ⟨q, hq, by simp [hqu]⟩
  unfold hasKey at h
  rw [hsome] at h
  cases h

/-- Helper: one registry life-cycle step preserves username uniqueness. -/
theorem keys_nodup_applyOp (m : Registry) (op : RegistryOp)
    (h : (m.map Prod.fst).Nodup) : ((applyOp m op).map Prod.fst).Nodup := by
  cases op with
  | register u c =>
    show (((registerClient m u c).2).map Prod.fst).Nodup
    unfold registerClient
    by_cases hk : hasKey m u
    · rw [if_pos hk]
      exact h
    · rw [if_neg hk]
      have hk' : hasKey m u = false := by simpa using hk
      simp only [List.map_append, List.map_cons, List.map_nil]
      exact List.Nodup.append h (List.nodup_singleton u)
        (List.disjoint_singleton.mpr (hasKey_false_not_mem m u hk'))
  | unregister u =>
    show (((unregisterClient m u).2).map Prod.fst).Nodup
    unfold unregisterClient
    by_cases hk : hasKey m u
    · rw [if_pos hk]
      exact h.sublist ((List.filter_sublist m).map Prod.fst)
    · rw [if_neg hk]
      exact h

/-- Helper: any sequence of registry life-cycle steps preserves username
uniqueness. -/
theorem keys_nodup_applyOps (ops : List RegistryOp) (m : Registry)
    (h : (m.map Prod.fst).Nodup) : ((applyOps m ops).map Prod.fst).Nodup := by
  induction ops generalizing m with
  | nil => exact h
  | cons op rest ih => exact ih (applyOp m op) (keys_nodup_applyOp m op h)

/-- C1: after any sequence of register/unregister attempts starting from the
empty registry the usernames are pairwise distinct (at most one session per
username), and a second login for an already-online username — with correct,
non-empty credentials — returns the `login_failed` "already online" response,
leaves the registry (and hence the first session's entry) unchanged, emits no
events and does not authenticate the connection. -/
theorem single_session_invariant (ops : List RegistryOp)
    (auth : String → String → Bool) (m : Registry) (sock : Socket)
    (u p : String) (hu : u ≠ "") (hp : p ≠ "") (hauth : auth u p = true)
    (honline : isClientConnected m u = true) :
    ((applyOps [] ops).map Prod.fst).Nodup ∧
    handleLogin auth m sock (some u) (some p) =
      ⟨some ⟨"login_failed", false, "用户已在线", none⟩, m, [], false⟩ := by
  constructor
  · exact keys_nodup_applyOps ops [] (by simp)
  · have hu' : (u == "") = false := beq_eq_false_iff_ne.mpr hu
    have hp' : (p == "") = false := beq_eq_false_iff_ne.mpr hp
    have hk : hasKey m u = true := honline
    unfold handleLogin
    simp [falsy, hu', hp', hauth, registerClient, hk]

/-- C1 witness: the invariant theorem applied to a concrete step sequence and
a registry where alice is already online. -/
theorem single_session_invariant_witness :
    (("alice" : String) ≠ "" ∧ ("pw" : String) ≠ "" ∧
     (fun _ _ => true : String → String → Bool) "alice" "pw" = true ∧
     isClientConnected [("alice", ⟨"alice", 3⟩)] "alice" = true) ∧
    (((applyOps [] [RegistryOp.register "alice" ⟨"alice", 3⟩,
        RegistryOp.register "alice" ⟨"alice", 4⟩,
        RegistryOp.register "bob" ⟨"bob", 5⟩]).map Prod.fst).Nodup ∧
     handleLogin (fun _ _ => true) [("alice", ⟨"alice", 3⟩)] 4
        (some "alice") (some "pw") =
       ⟨some ⟨"login_failed", false, "用户已在线", none⟩,
        [("alice", ⟨"alice", 3⟩)], [], false⟩) :=
  ⟨⟨by decide, by decide, rfl, rfl⟩,
   single_session_invariant
     [RegistryOp.register "alice" ⟨"alice", 3⟩,
      RegistryOp.register "alice" ⟨"alice", 4⟩,
      RegistryOp.register "bob" ⟨"bob", 5⟩]
     (fun _ _ => true) [("alice", ⟨"alice", 3⟩)] 4 "alice" "pw" (by decide)
     (by decide) rfl rfl⟩

/-- Helper: the canonical ordered pair is symmetric in its two arguments. -/
theorem canonPair_comm (a b : String) :
    (if b < a then (b, a) else (a, b)) = (if a < b then (a, b) else (b, a)) := by
  rcases lt_trichotomy a b with h | h | h
  · rw [if_neg (asymm h), if_pos h]
  · subst h
    simp
  · rw [if_pos h, if_neg (asymm h)]

/-- Helper: the canonical ordered pair is exactly (python min, python max). -/
theorem canonPair_eq_pyminmax (a b : String) :
    (if b < a then (b, a) else (a, b)) = (pymin a b, pymax a b) := by
  unfold pymin pymax
  rcases lt_trichotomy a b with h | h | h
  · rw [if_neg (asymm h), if_neg (asymm h), if_pos h]
  · subst h
    simp
  · rw [if_pos h, if_pos h, if_neg (asymm h)]

/-- Helper: python min of two strings is symmetric. -/
theorem pymin_comm (a b : String) : pymin a b = pymin b a := by
  unfold pymin
  rcases lt_trichotomy a b with h | h | h
  · rw [if_neg (asymm h), if_pos h]
  · subst h
    rfl
  · rw [if_pos h, if_neg (asymm h)]

/-- Helper: python max of two strings is symmetric. -/
theorem pymax_comm (a b : String) : pymax a b = pymax b a := by
  unfold pymax
  rcases lt_trichotomy a b with h | h | h
  · rw [if_pos h, if_neg (asymm h)]
  · subst h
    rfl
  · rw [if_neg (asymm h), if_pos h]

/-- Helper: a `scalar_one_or_none` call that returns no row means no row
matches. -/
theorem scalarOneOrNone_ok_none {α : Type} (l : List α) (p : α → Bool)
    (h : scalarOneOrNone l p = Except.ok none) : l.filter p = [] := by
  unfold scalarOneOrNone at h
  rcases hf : l.filter p with _ | ⟨x, _ | ⟨y, t⟩⟩ <;> rw [hf] at h <;>
    first
      | rfl
      | simp at h

/-- Helper: conversation lookup does not depend on the order of the two user
ids. -/
theorem getByUsers_comm (s : ConvStore) (a b : String) :
    getByUsers s a b = getByUsers s b a := by
  simp only [getByUsers]
  rw [canonPair_comm a b]

/-- Helper: conversation get-or-create is symmetric in the two user ids. -/
theorem getOrCreateConversation_comm (s : ConvStore) (a b : String) :
    getOrCreateConversation s a b = getOrCreateConversation s b a := by
  unfold getOrCreateConversation
  rw [getByUsers_comm s a b, pymin_comm a b, pymax_comm a b]

/-- Helper: repeating a successful get-or-create returns the same
conversation and leaves the store unchanged. -/
theorem getOrCreateConversation_idem (s : ConvStore) (a b : String)
    (c : Conversation) (s' : ConvStore)
    (h : getOrCreateConversation s a b = Except.ok (c, s')) :
    getOrCreateConversation s' a b = Except.ok (c, s') := by
  unfold getOrCreateConversation at h ⊢
  cases hg : getByUsers s a b with
  | error e =>
    rw [hg] at h
    cases h
  | ok o =>
    cases o with
    | some c0 =>
      rw [hg] at h
      obtain ⟨h1, h2⟩ : c0 = c ∧ s = s' := by simpa using h
      subst h1
      subst h2
      rw [hg]
    | none =>
      rw [hg] at h
      simp only [getByUsers] at hg
      have hfilter := scalarOneOrNone_ok_none _ _ hg
      obtain ⟨h1, h2⟩ :
          (⟨s.nextId, pymin a b, pymax a b, none⟩ : Conversation) = c ∧
          (⟨s.rows ++ [⟨s.nextId, pymin a b, pymax a b, none⟩], s.nextId + 1⟩ :
            ConvStore) = s' := by
        simpa [createConversation] using h
      subst h1
      subst h2
      have hlist :
          List.filter
            (fun r : Conversation =>
              r.user1_id == (if b < a then (b, a) else (a, b)).1 &&
              r.user2_id == (if b < a then (b, a) else (a, b)).2)
            (s.rows ++ [⟨s.nextId, pymin a b, pymax a b, none⟩]) =
            [⟨s.nextId, pymin a b, pymax a b, none⟩] := by
        rw [List.filter_append, hfilter, List.nil_append, canonPair_eq_pyminmax a b]
        simp
      have hlook :
          getByUsers
            ⟨s.rows ++ [⟨s.nextId, pymin a b, pymax a b, none⟩], s.nextId + 1⟩ a b =
          Except.ok (some ⟨s.nextId, pymin a b, pymax a b, none⟩) := by
        simp only [getByUsers, scalarOneOrNone]
        rw [hlist]
      rw [hlook]

/-- C3: resolving the private conversation for the pair (a, b) and for
(b, a) yields identical results (in particular the same conversation id), and
a repeated get-or-create for the same pair returns the same conversation and
creates no second row (the store is left unchanged). -/
theorem conversation_canonicalization (s : ConvStore) (a b : String) :
    getOrCreateConversation s a b = getOrCreateConversation s b a ∧
    ∀ c s', getOrCreateConversation s a b = Except.ok (c, s') →
      getOrCreateConversation s' a b = Except.ok (c, s') :=
  ⟨getOrCreateConversation_comm s a b,
   fun c s' h => getOrCreateConversation_idem s a b c s' h⟩

/-- C3 witness: the canonicalization theorem applied to the empty store for
the pair alice/bob, with the inner idempotence implication discharged at the
concretely created conversation. -/
theorem conversation_canonicalization_witness :
    (getOrCreateConversation ⟨[], 0⟩ "alice" "bob" =
       getOrCreateConversation ⟨[], 0⟩ "bob" "alice" ∧
     ∀ c s', getOrCreateConversation ⟨[], 0⟩ "alice" "bob" = Except.ok (c, s') →
       getOrCreateConversation s' "alice" "bob" = Except.ok (c, s')) ∧
    getOrCreateConversation ⟨[⟨0, "alice", "bob", none⟩], 1⟩ "alice" "bob" =
      Except.ok (⟨0, "alice", "bob", none⟩, ⟨[⟨0, "alice", "bob", none⟩], 1⟩) := by
  have hmain := conversation_canonicalization ⟨[], 0⟩ "alice" "bob"
  refine ⟨hmain, ?_⟩
  refine hmain.2 ⟨0, "alice", "bob", none⟩ ⟨[⟨0, "alice", "bob", none⟩], 1⟩ ?_
  have hab : ("alice" : String) < "bob" := by
    rw [String.lt_iff_toList_lt]
    decide
  have hba : ¬("bob" : String) < "alice" := asymm hab
  simp [getOrCreateConversation, getByUsers, scalarOneOrNone, createConversation,
    pymin, pymax, hab, hba]

/-- Helper: the oldest-first page produced by `get_lasted_message` is sorted
by ascending creation time. -/
theorem getLastedMessage_sorted (db : List GlobalMsg) (k : Nat) :
    List.Sorted (fun x y : GlobalMsg => x.created_at ≤ y.created_at)
      (getLastedMessage db k) := by
  unfold getLastedMessage
  have hs : List.Pairwise byTimeDesc (List.insertionSort byTimeDesc db) :=
    List.sorted_insertionSort byTimeDesc db
  have ht : List.Pairwise byTimeDesc ((List.insertionSort byTimeDesc db).take k) :=
    List.Pairwise.sublist (List.take_sublist k _) hs
  exact List.pairwise_reverse.mpr ht

/-- Helper: the page length of `get_lasted_message` is the limit capped by
the table size. -/
theorem getLastedMessage_length (db : List GlobalMsg) (k : Nat) :
    (getLastedMessage db k).length = min k db.length := by
  unfold getLastedMessage
  rw [List.length_reverse, List.length_take,
    (List.perm_insertionSort byTimeDesc db).length_eq]

/-- Helper: every message of the page is a message of the table. -/
theorem getLastedMessage_subset (db : List GlobalMsg) (k : Nat) (x : GlobalMsg)
    (hx : x ∈ getLastedMessage db k) : x ∈ db := by
  unfold getLastedMessage at hx
  rw [List.mem_reverse] at hx
  exact (List.perm_insertionSort byTimeDesc db).mem_iff.mp
    (List.take_subset k _ hx)

/-- Helper: any table message left out of the page is no newer than any
message of the page — the page really holds the most recent messages. -/
theorem getLastedMessage_most_recent (db : List GlobalMsg) (k : Nat)
    (msg : GlobalMsg) (hmsg : msg ∈ db) (hnot : msg ∉ getLastedMessage db k)
    (x : GlobalMsg) (hx : x ∈ getLastedMessage db k) :
    msg.created_at ≤ x.created_at := by
  unfold getLastedMessage at hnot hx
  rw [List.mem_reverse] at hnot hx
  have hmem : msg ∈ List.insertionSort byTimeDesc db :=
    (List.perm_insertionSort byTimeDesc db).mem_iff.mpr hmsg
  rw [← List.take_append_drop k (List.insertionSort byTimeDesc db)] at hmem
  have hdrop : msg ∈ (List.insertionSort byTimeDesc db).drop k := by
    rcases List.mem_append.mp hmem with h | h
    · exact absurd h hnot
    · exact h
  have hs : List.Pairwise byTimeDesc (List.insertionSort byTimeDesc db) :=
    List.sorted_insertionSort byTimeDesc db
  rw [← List.take_append_drop k (List.insertionSort byTimeDesc db)] at hs
  exact (List.pairwise_append.mp hs).2.2 x hx msg hdrop

/-- Helper: when the cursor row is present (as the unique match), the
before-cursor query restricts the table to the strictly older rows and pages
those. -/
theorem getBeforeMessage_found (db : List GlobalMsg) (cid k : Nat)
    (cur : GlobalMsg)
    (hcur : db.filter (fun msg => msg.message_id == cid) = [cur]) :
    getBeforeMessage db cid k =
      Except.ok (getLastedMessage
        (db.filter (fun msg => msg.created_at < cur.created_at)) k) := by
  unfold getBeforeMessage scalarOneOrNone
  rw [hcur]
  rfl

/-- Helper: an unknown cursor makes the before-cursor query fall back to the
most-recent page. -/
theorem getBeforeMessage_unknown (db : List GlobalMsg) (cid k : Nat)
    (hbad : ∀ msg ∈ db, (msg.message_id == cid) = false) :
    getBeforeMessage db cid k = Except.ok (getLastedMessage db k) := by
  unfold getBeforeMessage scalarOneOrNone
  have hnil : db.filter (fun msg => msg.message_id == cid) = [] := by
    rw [List.filter_eq_nil_iff]
    intro a ha
    simp [hbad a ha]
  rw [hnil]

/-- C7: history pagination, at the manager's output.  Without a cursor the
result is the `min limit size` most recent room messages in ascending time
order (every table message left out is no newer than any returned one).  With
a cursor whose row is present the result pages exactly the messages strictly
older than the cursor, still oldest-first.  With an unknown cursor the call
falls back to the most-recent page instead of failing. -/
theorem history_pagination (users : List UserRec) (db : List GlobalMsg)
    (k cid bad : Nat) (cur : GlobalMsg)
    (hcur : db.filter (fun msg => msg.message_id == cid) = [cur])
    (hbad : ∀ msg ∈ db, (msg.message_id == bad) = false) :
    ((getHistoryMessages users (Except.ok db) none k).length = min k db.length ∧
     List.Sorted (fun x y : FormattedMsg => x.timestamp ≤ y.timestamp)
       (getHistoryMessages users (Except.ok db) none k) ∧
     (∀ msg ∈ db,
        formatMsg users msg ∉ getHistoryMessages users (Except.ok db) none k →
        ∀ x ∈ getHistoryMessages users (Except.ok db) none k,
          msg.created_at ≤ x.timestamp)) ∧
    ((getHistoryMessages users (Except.ok db) (some cid) k).length =
       min k (db.filter (fun msg => msg.created_at < cur.created_at)).length ∧
     List.Sorted (fun x y : FormattedMsg => x.timestamp ≤ y.timestamp)
       (getHistoryMessages users (Except.ok db) (some cid) k) ∧
     (∀ x ∈ getHistoryMessages users (Except.ok db) (some cid) k,
        x.timestamp < cur.created_at)) ∧
    getHistoryMessages users (Except.ok db) (some bad) k =
      getHistoryMessages users (Except.ok db) none k := by
  have hnone : getHistoryMessages users (Except.ok db) none k =
      (getLastedMessage db k).map (formatMsg users) := rfl
  have hsome : getHistoryMessages users (Except.ok db) (some cid) k =
      (getLastedMessage (db.filter (fun msg => msg.created_at < cur.created_at)) k).map
        (formatMsg users) := by
    show (match getBeforeMessage db cid k with
      | Except.ok msgs => msgs.map (formatMsg users)
      | Except.error _ => []) =
      (getLastedMessage (db.filter (fun msg => msg.created_at < cur.created_at)) k).map
        (formatMsg users)
    rw [getBeforeMessage_found db cid k cur hcur]
  refine ⟨⟨?_, ?_, ?_⟩, ⟨?_, ?_, ?_⟩, ?_⟩
  · rw [hnone, List.length_map, getLastedMessage_length]
  · rw [hnone]
    exact List.pairwise_map.mpr (getLastedMessage_sorted db k)
  · intro msg hmsg hnot x hx
    rw [hnone] at hnot hx
    obtain ⟨y, hy, rfl⟩ := List.mem_map.mp hx
    have hmem' : msg ∉ getLastedMessage db k := fun hc =>
      hnot (List.mem_map.mpr ⟨msg, hc, rfl⟩)
    exact getLastedMessage_most_recent db k msg hmsg hmem' y hy
  · rw [hsome, List.length_map, getLastedMessage_length]
  · rw [hsome]
    exact List.pairwise_map.mpr (getLastedMessage_sorted _ k)
  · intro x hx
    rw [hsome] at hx
    obtain ⟨y, hy, rfl⟩ := List.mem_map.mp hx
    have hyf := getLastedMessage_subset _ k y hy
    have := (List.mem_filter.mp hyf).2
    simpa using this
  · show (match getBeforeMessage db bad k with
      | Except.ok msgs => msgs.map (formatMsg users)
      | Except.error _ => []) = getHistoryMessages users (Except.ok db) none k
    rw [getBeforeMessage_unknown db bad k hbad, hnone]

/-- C7 witness: the pagination theorem applied to a three-message table with
limit 2, a cursor pointing at the newest message, and an absent cursor id. -/
theorem history_pagination_witness :
    (([⟨1, none, "text", "m1", 10⟩, ⟨2, none, "text", "m2", 20⟩,
       ⟨3, none, "text", "m3", 30⟩] : List GlobalMsg).filter
        (fun msg => msg.message_id == 3) = [⟨3, none, "text", "m3", 30⟩] ∧
     ∀ msg ∈ ([⟨1, none, "text", "m1", 10⟩, ⟨2, none, "text", "m2", 20⟩,
       ⟨3, none, "text", "m3", 30⟩] : List GlobalMsg),
         (msg.message_id == 99) = false) ∧
    (((getHistoryMessages [] (Except.ok [⟨1, none, "text", "m1", 10⟩,
        ⟨2, none, "text", "m2", 20⟩, ⟨3, none, "text", "m3", 30⟩]) none 2).length =
        min 2 ([⟨1, none, "text", "m1", 10⟩, ⟨2, none, "text", "m2", 20⟩,
          ⟨3, none, "text", "m3", 30⟩] : List GlobalMsg).length ∧
      List.Sorted (fun x y : FormattedMsg => x.timestamp ≤ y.timestamp)
        (getHistoryMessages [] (Except.ok [⟨1, none, "text", "m1", 10⟩,
          ⟨2, none, "text", "m2", 20⟩, ⟨3, none, "text", "m3", 30⟩]) none 2) ∧
      (∀ msg ∈ ([⟨1, none, "text", "m1", 10⟩, ⟨2, none, "text", "m2", 20⟩,
          ⟨3, none, "text", "m3", 30⟩] : List GlobalMsg),
         formatMsg [] msg ∉ getHistoryMessages [] (Except.ok
           [⟨1, none, "text", "m1", 10⟩, ⟨2, none, "text", "m2", 20⟩,
            ⟨3, none, "text", "m3", 30⟩]) none 2 →
         ∀ x ∈ getHistoryMessages [] (Except.ok [⟨1, none, "text", "m1", 10⟩,
            ⟨2, none, "text", "m2", 20⟩, ⟨3, none, "text", "m3", 30⟩]) none 2,
           msg.created_at ≤ x.timestamp)) ∧
     ((getHistoryMessages [] (Except.ok [⟨1, none, "text", "m1", 10⟩,
        ⟨2, none, "text", "m2", 20⟩, ⟨3, none, "text", "m3", 30⟩]) (some 3) 2).length =
        min 2 (([⟨1, none, "text", "m1", 10⟩, ⟨2, none, "text", "m2", 20⟩,
          ⟨3, none, "text", "m3", 30⟩] : List GlobalMsg).filter
            (fun msg => msg.created_at <
              (⟨3, none, "text", "m3", 30⟩ : GlobalMsg).created_at)).length ∧
      List.Sorted (fun x y : FormattedMsg => x.timestamp ≤ y.timestamp)
        (getHistoryMessages [] (Except.ok [⟨1, none, "text", "m1", 10⟩,
          ⟨2, none, "text", "m2", 20⟩, ⟨3, none, "text", "m3", 30⟩]) (some 3) 2) ∧
      (∀ x ∈ getHistoryMessages [] (Except.ok [⟨1, none, "text", "m1", 10⟩,
          ⟨2, none, "text", "m2", 20⟩, ⟨3, none, "text", "m3", 30⟩]) (some 3) 2,
         x.timestamp < (⟨3, none, "text", "m3", 30⟩ : GlobalMsg).created_at)) ∧
     getHistoryMessages [] (Except.ok [⟨1, none, "text", "m1", 10⟩,
        ⟨2, none, "text", "m2", 20⟩, ⟨3, none, "text", "m3", 30⟩]) (some 99) 2 =
       getHistoryMessages [] (Except.ok [⟨1, none, "text", "m1", 10⟩,
        ⟨2, none, "text", "m2", 20⟩, ⟨3, none, "text", "m3", 30⟩]) none 2) :=
  ⟨⟨by decide, by decide⟩,
   history_pagination [] [⟨1, none, "text", "m1", 10⟩, ⟨2, none, "text", "m2", 20⟩,
     ⟨3, none, "text", "m3", 30⟩] 2 3 99 ⟨3, none, "text", "m3", 30⟩
     (by decide) (by decide)⟩

end ChatRoom
